import Mathlib

/-!
Shallow embedding of the go-live orchestration core of `twitch_go.py`:
the token lifecycle (load / exchange / refresh / save), the metadata
client calls (`get_broadcaster_id`, `get_game_id`, `update_channel`),
the OBS broadcast controller step (`start_obs`), and the orchestrator
`run_preset` that sequences them.

External effects (HTTP calls, the OBS websocket, the token file) are
modelled explicitly: an `Env` record supplies the outcome of each remote
call, the token file is threaded as an `Option TokenSet`, and every
remote call performed is recorded in an event trace so that call counts
(refreshes, retries, patches, controller calls) can be stated.
-/

namespace TwitchGo

/-- Outcome of one `requests` call in the source: either the parsed
successful response, or `raise_for_status` raised (`requests.HTTPError`,
carrying the status code), or a non-HTTP failure (connection error /
timeout, which is *not* a `requests.HTTPError`). -/
inductive CallResult (α : Type) where
  | ok (v : α) : CallResult α
  | httpError (status : Nat) : CallResult α
  | netError : CallResult α
deriving DecidableEq, Repr

/-- A Python exception propagating out of the orchestration. -/
inductive PyExn where
  | httpError (status : Nat)
  | netError
deriving DecidableEq, Repr

/-- The persisted token record (`tokens.json`): access and refresh token
plus whatever opaque provider fields came with the exchange response.
`save_tokens` always writes the whole record. -/
structure TokenSet where
  access_token : String
  refresh_token : String
  extra : List (String × String) := []
deriving DecidableEq, Repr

/-- The JSON body sent to `PATCH /channels` by `run_preset`:
`{"title": ..., "game_id": ...}` with `"tags"` added only when the
preset's tag list is truthy (non-empty). -/
structure Payload where
  title : String
  game_id : String
  tags : Option (List String) := none
deriving DecidableEq, Repr

/-- One externally visible call made during an orchestration run. -/
inductive Event where
  | exchangeCode (code : String)
  | saveTokens (t : TokenSet)
  | getBroadcasterId (token : String)
  | refreshTokens (refresh_token : String)
  | getGames (token game_name : String)
  | updateChannel (token broadcaster_id : String) (payload : Payload)
  | getStreamStatus
  | startStream
deriving DecidableEq, Repr

/-- The remote world: what each remote call returns.  `getBroadcasterId`
and friends are functions of the request parameters, so a token that was
rejected once is rejected again while a freshly refreshed token can
succeed. -/
structure Env where
  exchangeCode : String → CallResult TokenSet
  getBroadcasterId : String → CallResult String
  refreshTokens : String → CallResult TokenSet
  getGames : String → String → CallResult (List String)
  updateChannel : String → String → Payload → CallResult Unit
  getStreamStatus : CallResult Bool
  startStream : CallResult Unit

/-- The slice of one preset that `run_preset` reads:
`preset["game"]["category"]`, `preset["defaults"]["title"]`,
`preset["defaults"]["go_live_notification"]`, `preset.get("tags", [])`. -/
structure Preset where
  category : String
  title : String
  go_live_notif : String
  tags : List String
deriving DecidableEq, Repr

/-- The configuration flags `run_preset` reads:
`cfg["defaults"]["prompts"].get("confirm", True)` and
`cfg["defaults"]["obs"].get("auto_start", True)`; `none` models an
absent key, resolved by `Option.getD true`. -/
structure Cfg where
  promptsConfirm : Option Bool
  obsAutoStart : Option Bool
deriving DecidableEq, Repr

/-- The interactive answers the user types during one run:
the pasted `?code=` value, the title prompt answer, the go-live
notification prompt answer, and the `Proceed? [Y/n]` answer. -/
structure UserInput where
  codeInput : String
  titleInput : String
  notifInput : String
  confirmInput : String
deriving DecidableEq, Repr

/-- Python `str.strip()`: remove leading and trailing whitespace. -/
def pyStrip (s : String) : String :=
  ⟨((s.data.dropWhile Char.isWhitespace).reverse.dropWhile
      Char.isWhitespace).reverse⟩

/-- Python `str.lower()` (ASCII case folding). -/
def pyLower (s : String) : String := ⟨s.data.map Char.toLower⟩

/-- `prompt(label, default)` of the source: strips the typed value and
falls back to the default when the stripped value is empty. -/
def promptResult (inp dflt : String) : String :=
  let v := pyStrip inp
  if v = "" then dflt else v

/-- Python truthiness of `OBS_PASSWORD` (from `os.environ.get`):
`not OBS_PASSWORD` holds when the variable is absent or empty. -/
def falsyStr : Option String → Bool
  | none => true
  | some s => s = ""

/-- Terminal outcome of an orchestration run: the final success print,
a `die(msg)` (printed error + `sys.exit(1)`), or an uncaught exception. -/
inductive Outcome where
  | done
  | died (msg : String)
  | exn (e : PyExn)
deriving DecidableEq, Repr

/-- Result of a run: outcome, event trace, final token-file contents. -/
structure RunResult where
  outcome : Outcome
  trace : List Event
  file : Option TokenSet
deriving DecidableEq, Repr

/-- `start_obs()`: dies if the OBS password is falsy, otherwise queries
the stream status and calls `start_stream()` only when not already
active.  Connection failures of the websocket client surface through the
status query's result. -/
def start_obs (env : Env) (obsPassword : Option String) :
    Outcome × List Event :=
  if falsyStr obsPassword then (.died "OBS_WS_PASSWORD not set", [])
  else
    match env.getStreamStatus with
    | .httpError s => (.exn (.httpError s), [.getStreamStatus])
    | .netError => (.exn .netError, [.getStreamStatus])
    | .ok active =>
      if active then (.done, [.getStreamStatus])
      else
        match env.startStream with
        | .ok _ => (.done, [.getStreamStatus, .startStream])
        | .httpError s => (.exn (.httpError s), [.getStreamStatus, .startStream])
        | .netError => (.exn .netError, [.getStreamStatus, .startStream])

/-- Lines 398–405 of `run_preset`: try `get_broadcaster_id` with the
current access token; on `requests.HTTPError` (and only on that
exception class) refresh the tokens, persist them, and retry once with
the new access token.  Returns the usable `(access_token,
broadcaster_id)` or the propagating exception, together with the events
performed and the resulting token-file contents. -/
def authStage (env : Env) (tokens : TokenSet) (file : Option TokenSet) :
    Except PyExn (String × String) × List Event × Option TokenSet :=
  let ev1 : Event := .getBroadcasterId tokens.access_token
  match env.getBroadcasterId tokens.access_token with
  | .ok bid => (.ok (tokens.access_token, bid), [ev1], file)
  | .netError => (.error .netError, [ev1], file)
  | .httpError _ =>
    let ev2 : Event := .refreshTokens tokens.refresh_token
    match env.refreshTokens tokens.refresh_token with
    | .httpError s => (.error (.httpError s), [ev1, ev2], file)
    | .netError => (.error .netError, [ev1, ev2], file)
    | .ok newT =>
      match env.getBroadcasterId newT.access_token with
      | .ok bid =>
        (.ok (newT.access_token, bid),
         [ev1, ev2, .saveTokens newT, .getBroadcasterId newT.access_token],
         some newT)
      | .httpError s =>
        (.error (.httpError s),
         [ev1, ev2, .saveTokens newT, .getBroadcasterId newT.access_token],
         some newT)
      | .netError =>
        (.error .netError,
         [ev1, ev2, .saveTokens newT, .getBroadcasterId newT.access_token],
         some newT)

/-- Lines 422–436 of `run_preset`: build the patch payload (resolving
the game id first, dying when the search returns no data), send the
channel update, then optionally run `start_obs`. -/
def afterConfirm (env : Env) (cfg : Cfg) (obsPassword : Option String)
    (access_token broadcaster_id title category : String)
    (tags : List String) : Outcome × List Event :=
  let gev : Event := .getGames access_token category
  match env.getGames access_token category with
  | .httpError s => (.exn (.httpError s), [gev])
  | .netError => (.exn .netError, [gev])
  | .ok [] => (.died ("Game not found on Twitch: " ++ category), [gev])
  | .ok (gid :: _) =>
    let payload : Payload :=
      { title := title, game_id := gid,
        tags := if tags = [] then none else some tags }
    let uev : Event := .updateChannel access_token broadcaster_id payload
    match env.updateChannel access_token broadcaster_id payload with
    | .httpError s => (.exn (.httpError s), [gev, uev])
    | .netError => (.exn .netError, [gev, uev])
    | .ok _ =>
      if cfg.obsAutoStart.getD true then
        let r := start_obs env obsPassword
        (r.1, [gev, uev] ++ r.2)
      else (.done, [gev, uev])

/-- `run_preset` from the point where a token record is in hand: the
auth-resolution stage with its single bounded retry, the title and
go-live-notification prompts (the notification answer is discarded), the
confirmation gate, and the metadata/OBS tail. -/
def runWithTokens (env : Env) (cfg : Cfg) (preset : Preset)
    (ui : UserInput) (obsPassword : Option String) (tokens : TokenSet)
    (file : Option TokenSet) (tr0 : List Event) : RunResult :=
  match authStage env tokens file with
  | (.error e, tr, file') => ⟨.exn e, tr0 ++ tr, file'⟩
  | (.ok (access_token, broadcaster_id), tr, file') =>
    let title := promptResult ui.titleInput preset.title
    let confirmed : Bool :=
      if cfg.promptsConfirm.getD true then
        decide ¬(pyLower ui.confirmInput = "n")
      else true
    if confirmed then
      let r := afterConfirm env cfg obsPassword access_token
        broadcaster_id title preset.category preset.tags
      ⟨r.1, tr0 ++ tr ++ r.2, file'⟩
    else ⟨.died "Aborted", tr0 ++ tr, file'⟩

/-- `run_preset(cfg, key)` with the preset already resolved: when no
token file exists, run the interactive authorization-code exchange and
persist its result; then proceed with the common pipeline. -/
def run_preset (env : Env) (cfg : Cfg) (preset : Preset) (ui : UserInput)
    (obsPassword : Option String) (file0 : Option TokenSet) : RunResult :=
  match file0 with
  | some t => runWithTokens env cfg preset ui obsPassword t (some t) []
  | none =>
    let code := pyStrip ui.codeInput
    let ev : Event := .exchangeCode code
    match env.exchangeCode code with
    | .httpError s => ⟨.exn (.httpError s), [ev], none⟩
    | .netError => ⟨.exn .netError, [ev], none⟩
    | .ok t =>
      runWithTokens env cfg preset ui obsPassword t (some t)
        [ev, .saveTokens t]

/-- Module-level credential loading (lines 155–160): reading the three
required environment variables, dying with the `KeyError` message when
one is absent.  Mirrors Python's left-to-right evaluation order. -/
structure Creds where
  client_id : String
  client_secret : String
  redirect_uri : String
deriving DecidableEq, Repr

def loadCreds (getenv : String → Option String) : Except String Creds :=
  match getenv "TWITCH_CLIENT_ID" with
  | none => .error "Missing required environment variable: 'TWITCH_CLIENT_ID'"
  | some cid =>
    match getenv "TWITCH_CLIENT_SECRET" with
    | none => .error "Missing required environment variable: 'TWITCH_CLIENT_SECRET'"
    | some cs =>
      match getenv "TWITCH_REDIRECT_URI" with
      | none => .error "Missing required environment variable: 'TWITCH_REDIRECT_URI'"
      | some ru => .ok ⟨cid, cs, ru⟩

/-- Lines 162–164: the OBS connection parameters are read with defaults
and no startup validation; the password may simply be `None`. -/
structure ObsConn where
  host : String
  port : String
  password : Option String
deriving DecidableEq, Repr

def loadObsConn (getenv : String → Option String) : ObsConn :=
  ⟨(getenv "OBS_WS_HOST").getD "localhost",
   (getenv "OBS_WS_PORT").getD "4455",
   getenv "OBS_WS_PASSWORD"⟩

/-! ### Trace counting helpers -/

def isRefreshEv : Event → Bool
  | .refreshTokens _ => true
  | _ => false

def isGetBidEv : Event → Bool
  | .getBroadcasterId _ => true
  | _ => false

def isPatchEv : Event → Bool
  | .updateChannel _ _ _ => true
  | _ => false

def isStartEv : Event → Bool
  | .startStream => true
  | _ => false

/-- Any call to the broadcast controller (status query or start). -/
def isObsEv : Event → Bool
  | .getStreamStatus => true
  | .startStream => true
  | _ => false

def countEv (p : Event → Bool) (tr : List Event) : Nat := tr.countP p

/-! ### Concrete fixtures for evaluating the model -/

def t0 : TokenSet := ⟨"acc0", "ref0", [("scope", "chat")]⟩

def t1 : TokenSet := ⟨"acc1", "ref1", [("expires", "999")]⟩

def preset0 : Preset := ⟨"VALORANT", "Ranked grind", "going live", ["FPS"]⟩

def cfg0 : Cfg := ⟨some true, some true⟩

def ui0 : UserInput := ⟨"code123", "", "", "y"⟩

/-- Configuration with the confirmation prompt turned off. -/
def cfgNoConfirm : Cfg := ⟨some false, some true⟩

/-- A world where every remote call succeeds. -/
def envOk : Env :=
  ⟨fun _ => .ok t0, fun _ => .ok "bid1", fun _ => .ok t1,
   fun _ _ => .ok ["509658", "111"], fun _ _ _ => .ok (), .ok false, .ok ()⟩

/-- Both the original and the refreshed token are rejected with 401. -/
def envAuthTwice : Env := { envOk with getBroadcasterId := fun _ => .httpError 401 }

/-- The stored token is rejected with 401; the refreshed one works. -/
def envAuthOnce : Env :=
  { envOk with
    getBroadcasterId := fun tok =>
      if tok = "acc1" then .ok "bid1" else .httpError 401 }

/-- The stored token hits a 500 upstream error on the first call. -/
def env500 : Env :=
  { envOk with
    getBroadcasterId := fun tok =>
      if tok = "acc0" then .httpError 500 else .ok "bid1" }

/-- The account lookup fails with a connection error, not an HTTP error. -/
def envNet : Env := { envOk with getBroadcasterId := fun _ => .netError }

/-- The channel patch is rejected with 401. -/
def envPatch401 : Env := { envOk with updateChannel := fun _ _ _ => .httpError 401 }

/-- The stored token is rejected and the refresh exchange is rejected too. -/
def envRefreshFail : Env :=
  { envOk with
    getBroadcasterId := fun _ => .httpError 401,
    refreshTokens := fun _ => .httpError 400 }

/-- The broadcast is already active. -/
def envActive : Env := { envOk with getStreamStatus := .ok true }

/-- The category search returns zero matches. -/
def envEmptyGames : Env := { envOk with getGames := fun _ _ => .ok [] }

/-- An environment with all Twitch credentials set but no OBS password. -/
def getenvNoObsPw : String → Option String := fun k =>
  if k = "TWITCH_CLIENT_ID" then some "cid"
  else if k = "TWITCH_CLIENT_SECRET" then some "sec"
  else if k = "TWITCH_REDIRECT_URI" then some "http://localhost"
  else if k = "OBS_WS_HOST" then some "localhost"
  else none

/-- An environment with no variables set at all. -/
def getenvMissingCid : String → Option String := fun _ => none

/-! ### Helper lemmas about the traces of each stage -/

lemma game_not_found_ne_aborted (cat : String) :
    ("Game not found on Twitch: " ++ cat) ≠ "Aborted" := by
  intro h
  have hl := congrArg String.length h
  rw [String.length_append] at hl
  have h1 : ("Game not found on Twitch: " : String).length = 26 := by decide
  have h2 : ("Aborted" : String).length = 7 := by decide
  omega

lemma start_obs_no_refresh (env : Env) (pw : Option String) :
    ∀ x ∈ (start_obs env pw).2, isRefreshEv x = false := by
  unfold start_obs
  repeat' split
  all_goals simp [isRefreshEv]

lemma start_obs_no_getBid (env : Env) (pw : Option String) :
    ∀ x ∈ (start_obs env pw).2, isGetBidEv x = false := by
  unfold start_obs
  repeat' split
  all_goals simp [isGetBidEv]

lemma start_obs_no_patch (env : Env) (pw : Option String) :
    ∀ x ∈ (start_obs env pw).2, isPatchEv x = false := by
  unfold start_obs
  repeat' split
  all_goals simp [isPatchEv]

lemma start_obs_fst_ne_aborted (env : Env) (pw : Option String) :
    (start_obs env pw).1 ≠ .died "Aborted" := by
  unfold start_obs
  repeat' split
  all_goals simp

lemma afterConfirm_no_refresh (env : Env) (cfg : Cfg) (pw : Option String)
    (a b ttl cat : String) (tags : List String) :
    ∀ x ∈ (afterConfirm env cfg pw a b ttl cat tags).2, isRefreshEv x = false := by
  unfold afterConfirm
  repeat' split
  all_goals try simp [isRefreshEv]
  all_goals repeat' split
  all_goals try simp [isRefreshEv]
  all_goals exact start_obs_no_refresh env pw

lemma afterConfirm_no_getBid (env : Env) (cfg : Cfg) (pw : Option String)
    (a b ttl cat : String) (tags : List String) :
    ∀ x ∈ (afterConfirm env cfg pw a b ttl cat tags).2, isGetBidEv x = false := by
  unfold afterConfirm
  repeat' split
  all_goals try simp [isGetBidEv]
  all_goals repeat' split
  all_goals try simp [isGetBidEv]
  all_goals exact start_obs_no_getBid env pw

lemma afterConfirm_fst_ne_aborted (env : Env) (cfg : Cfg) (pw : Option String)
    (a b ttl cat : String) (tags : List String) :
    (afterConfirm env cfg pw a b ttl cat tags).1 ≠ .died "Aborted" := by
  unfold afterConfirm
  repeat' split
  all_goals try simp [start_obs_fst_ne_aborted, game_not_found_ne_aborted]
  all_goals repeat' split
  all_goals simp [start_obs_fst_ne_aborted, game_not_found_ne_aborted]

lemma authStage_no_patch (env : Env) (t : TokenSet) (f : Option TokenSet) :
    ∀ x ∈ (authStage env t f).2.1, isPatchEv x = false := by
  unfold authStage
  repeat' split
  all_goals simp [isPatchEv]

lemma authStage_no_obs (env : Env) (t : TokenSet) (f : Option TokenSet) :
    ∀ x ∈ (authStage env t f).2.1, isObsEv x = false := by
  unfold authStage
  repeat' split
  all_goals simp [isObsEv]

lemma afterConfirm_patch_shape (env : Env) (cfg : Cfg) (pw : Option String)
    (a b ttl cat : String) (tags : List String) (tok bid : String)
    (p : Payload)
    (hmem : Event.updateChannel tok bid p ∈
      (afterConfirm env cfg pw a b ttl cat tags).2) :
    tok = a ∧ bid = b ∧ p.title = ttl ∧
    p.tags = (if tags = [] then none else some tags) ∧
    ∃ gid rest, env.getGames a cat = .ok (gid :: rest) ∧ p.game_id = gid := by
  unfold afterConfirm at hmem
  repeat' split at hmem
  all_goals try simp at hmem
  all_goals repeat' split at hmem
  all_goals simp at hmem
  all_goals try (rcases hmem with hmem | hmem)
  all_goals try (exact (by simpa [isPatchEv] using start_obs_no_patch env pw _ hmem))
  all_goals simp_all

/-! ### Claims -/

/-- C1: when the wrapped operation fails with an authentication rejection
(HTTP 401), the orchestrator performs exactly one token refresh and
exactly one retry of the operation with the new token.  In the world
`env` the retried call fails again with 401: that second failure
propagates to the caller and the whole trace is just the four calls (one
refresh, two operation calls — never more).  In the world `env2` the
retried call succeeds: the completed run still contains exactly one
refresh and exactly two operation calls, starting with the same four
events. -/
theorem single_refresh_retry_on_auth_rejection
    (env env2 : Env) (cfg cfg2 : Cfg) (preset preset2 : Preset)
    (ui ui2 : UserInput) (pw pw2 : Option String)
    (t newT t2 newT2 : TokenSet) (bid : String)
    (h1 : env.getBroadcasterId t.access_token = .httpError 401)
    (h2 : env.refreshTokens t.refresh_token = .ok newT)
    (h3 : env.getBroadcasterId newT.access_token = .httpError 401)
    (g1 : env2.getBroadcasterId t2.access_token = .httpError 401)
    (g2 : env2.refreshTokens t2.refresh_token = .ok newT2)
    (g3 : env2.getBroadcasterId newT2.access_token = .ok bid) :
    (run_preset env cfg preset ui pw (some t)).outcome = .exn (.httpError 401) ∧
    (run_preset env cfg preset ui pw (some t)).trace =
      [.getBroadcasterId t.access_token, .refreshTokens t.refresh_token,
       .saveTokens newT, .getBroadcasterId newT.access_token] ∧
    countEv isRefreshEv (run_preset env cfg preset ui pw (some t)).trace = 1 ∧
    countEv isGetBidEv (run_preset env cfg preset ui pw (some t)).trace = 2 ∧
    countEv isRefreshEv (run_preset env2 cfg2 preset2 ui2 pw2 (some t2)).trace = 1 ∧
    countEv isGetBidEv (run_preset env2 cfg2 preset2 ui2 pw2 (some t2)).trace = 2 ∧
    ∃ tl, (run_preset env2 cfg2 preset2 ui2 pw2 (some t2)).trace =
      [.getBroadcasterId t2.access_token, .refreshTokens t2.refresh_token,
       .saveTokens newT2, .getBroadcasterId newT2.access_token] ++ tl := by
  have ha : authStage env t (some t) =
      (.error (.httpError 401),
       [.getBroadcasterId t.access_token, .refreshTokens t.refresh_token,
        .saveTokens newT, .getBroadcasterId newT.access_token], some newT) := by
    simp [authStage, h1, h2, h3]
  have ha2 : authStage env2 t2 (some t2) =
      (.ok (newT2.access_token, bid),
       [.getBroadcasterId t2.access_token, .refreshTokens t2.refresh_token,
        .saveTokens newT2, .getBroadcasterId newT2.access_token], some newT2) := by
    simp [authStage, g1, g2, g3]
  have hz := List.countP_eq_zero.mpr (fun x hx => by
    simpa using afterConfirm_no_refresh env2 cfg2 pw2 newT2.access_token bid
      (promptResult ui2.titleInput preset2.title) preset2.category
      preset2.tags x hx)
  have hz2 := List.countP_eq_zero.mpr (fun x hx => by
    simpa using afterConfirm_no_getBid env2 cfg2 pw2 newT2.access_token bid
      (promptResult ui2.titleInput preset2.title) preset2.category
      preset2.tags x hx)
  refine ⟨?_, ?_, ?_, ?_, ?_, ?_, ?_⟩
  · simp [run_preset, runWithTokens, ha]
  · simp [run_preset, runWithTokens, ha]
  · simp [run_preset, runWithTokens, ha, countEv, List.countP_cons,
      List.countP_nil, isRefreshEv]
  · simp [run_preset, runWithTokens, ha, countEv, List.countP_cons,
      List.countP_nil, isGetBidEv]
  · simp only [run_preset, runWithTokens, ha2, countEv]
    repeat' split
    all_goals simp [List.countP_append, List.countP_cons, List.countP_nil,
      isRefreshEv, hz]
  · simp only [run_preset, runWithTokens, ha2, countEv]
    repeat' split
    all_goals simp [List.countP_append, List.countP_cons, List.countP_nil,
      isGetBidEv, hz2]
  · simp only [run_preset, runWithTokens, ha2]
    repeat' split
    all_goals exact ⟨_, rfl⟩

/-- Witness for C1 at a concrete world: the stored token is rejected
twice; one refresh and one retry happen. -/
theorem single_refresh_retry_on_auth_rejection_witness :
    countEv isRefreshEv
      (run_preset envAuthTwice cfg0 preset0 ui0 (some "pw") (some t0)).trace = 1 ∧
    countEv isRefreshEv
      (run_preset envAuthOnce cfg0 preset0 ui0 (some "pw") (some t0)).trace = 1 :=
  ⟨(single_refresh_retry_on_auth_rejection envAuthTwice envAuthOnce cfg0 cfg0
      preset0 preset0 ui0 ui0 (some "pw") (some "pw") t0 t1 t0 t1 "bid1"
      rfl rfl rfl rfl rfl rfl).2.2.1,
   (single_refresh_retry_on_auth_rejection envAuthTwice envAuthOnce cfg0 cfg0
      preset0 preset0 ui0 ui0 (some "pw") (some "pw") t0 t1 t0 t1 "bid1"
      rfl rfl rfl rfl rfl rfl).2.2.2.2.1⟩

/-- C2 counterexample: a 500 upstream error — not an authentication
rejection — on the wrapped call nevertheless triggers a token refresh
(one refresh in the trace, not zero) and a successful retry, because the
`except` clause catches every `requests.HTTPError`, not only 401s. -/
theorem non_auth_failure_retried_counterexample :
    env500.getBroadcasterId t0.access_token = .httpError 500 ∧
    ¬countEv isRefreshEv
      (run_preset env500 cfg0 preset0 ui0 (some "pw") (some t0)).trace = 0 ∧
    countEv isRefreshEv
      (run_preset env500 cfg0 preset0 ui0 (some "pw") (some t0)).trace = 1 ∧
    countEv isGetBidEv
      (run_preset env500 cfg0 preset0 ui0 (some "pw") (some t0)).trace = 2 ∧
    (run_preset env500 cfg0 preset0 ui0 (some "pw") (some t0)).outcome = .done := by
  decide

/-- C2 amended: the single refresh-and-retry is triggered by any
`requests.HTTPError` (any non-2xx status `s`) of the wrapped call, not
only authentication rejections; a non-HTTP failure (connection error or
timeout, world `env2`) is terminal without any refresh or retry. -/
theorem refresh_trigger_is_any_http_error
    (env env2 : Env) (cfg cfg2 : Cfg) (preset preset2 : Preset)
    (ui ui2 : UserInput) (pw pw2 : Option String) (t t2 : TokenSet) (s : Nat)
    (h1 : env.getBroadcasterId t.access_token = .httpError s)
    (h2 : env2.getBroadcasterId t2.access_token = .netError) :
    countEv isRefreshEv (run_preset env cfg preset ui pw (some t)).trace = 1 ∧
    (run_preset env2 cfg2 preset2 ui2 pw2 (some t2)).outcome = .exn .netError ∧
    countEv isRefreshEv (run_preset env2 cfg2 preset2 ui2 pw2 (some t2)).trace = 0 ∧
    countEv isGetBidEv (run_preset env2 cfg2 preset2 ui2 pw2 (some t2)).trace = 1 := by
  have ha2 : authStage env2 t2 (some t2) =
      (.error .netError, [.getBroadcasterId t2.access_token], some t2) := by
    simp [authStage, h2]
  refine ⟨?_, ?_, ?_, ?_⟩
  · rcases hr : env.refreshTokens t.refresh_token with newT | s2 | _
    · rcases hb : env.getBroadcasterId newT.access_token with bid | s3 | _
      · have hz := List.countP_eq_zero.mpr (fun x hx => by
          simpa using afterConfirm_no_refresh env cfg pw newT.access_token bid
            (promptResult ui.titleInput preset.title) preset.category
            preset.tags x hx)
        simp only [run_preset, runWithTokens, authStage, h1, hr, hb, countEv]
        repeat' split
        all_goals simp [List.countP_append, List.countP_cons,
          List.countP_nil, isRefreshEv, hz]
      · simp [run_preset, runWithTokens, authStage, h1, hr, hb, countEv,
          List.countP_cons, List.countP_nil, isRefreshEv]
      · simp [run_preset, runWithTokens, authStage, h1, hr, hb, countEv,
          List.countP_cons, List.countP_nil, isRefreshEv]
    · simp [run_preset, runWithTokens, authStage, h1, hr, countEv,
        List.countP_cons, List.countP_nil, isRefreshEv]
    · simp [run_preset, runWithTokens, authStage, h1, hr, countEv,
        List.countP_cons, List.countP_nil, isRefreshEv]
  · simp [run_preset, runWithTokens, ha2]
  · simp [run_preset, runWithTokens, ha2, countEv, List.countP_cons,
      List.countP_nil, isRefreshEv]
  · simp [run_preset, runWithTokens, ha2, countEv, List.countP_cons,
      List.countP_nil, isGetBidEv]

/-- Witness for the amended C2: a concrete 502 failure yields one
refresh; a concrete connection error yields none. -/
theorem refresh_trigger_is_any_http_error_witness :
    countEv isRefreshEv
      (run_preset env500 cfg0 preset0 ui0 (some "pw") (some t0)).trace = 1 ∧
    countEv isRefreshEv
      (run_preset envNet cfg0 preset0 ui0 (some "pw") (some t0)).trace = 0 :=
  ⟨(refresh_trigger_is_any_http_error env500 envNet cfg0 cfg0 preset0 preset0
      ui0 ui0 (some "pw") (some "pw") t0 t0 500 rfl rfl).1,
   (refresh_trigger_is_any_http_error env500 envNet cfg0 cfg0 preset0 preset0
      ui0 ui0 (some "pw") (some "pw") t0 t0 500 rfl rfl).2.2.1⟩

/-- C3 counterexample: when the metadata patch itself is rejected with
401, the exception propagates with no token refresh and no second patch
attempt — only `get_broadcaster_id` sits inside the try/except, the
patch at line 430 does not. -/
theorem patch_not_wrapped_counterexample :
    envPatch401.updateChannel "acc0" "bid1"
      ⟨"Ranked grind", "509658", some ["FPS"]⟩ = .httpError 401 ∧
    (run_preset envPatch401 cfg0 preset0 ui0 (some "pw") (some t0)).outcome
      = .exn (.httpError 401) ∧
    ¬countEv isRefreshEv
      (run_preset envPatch401 cfg0 preset0 ui0 (some "pw") (some t0)).trace = 1 ∧
    countEv isRefreshEv
      (run_preset envPatch401 cfg0 preset0 ui0 (some "pw") (some t0)).trace = 0 ∧
    countEv isPatchEv
      (run_preset envPatch401 cfg0 preset0 ui0 (some "pw") (some t0)).trace = 1 := by
  decide

/-- C3 amended: only the account-id resolution is executed under the
refresh-and-retry wrapper.  World `env`: a 401 on the metadata patch
propagates with zero refreshes and no retry of the patch.  World `env2`:
a 401 on the account-id resolution does trigger the single refresh and
retry. -/
theorem only_account_resolution_wrapped
    (env env2 : Env) (cfg cfg2 : Cfg) (preset preset2 : Preset)
    (ui ui2 : UserInput) (pw pw2 : Option String)
    (t t2 newT2 : TokenSet) (bid bid2 gid : String) (rest : List String)
    (h1 : env.getBroadcasterId t.access_token = .ok bid)
    (h2 : ¬(pyLower ui.confirmInput = "n"))
    (h3 : env.getGames t.access_token preset.category = .ok (gid :: rest))
    (h4 : env.updateChannel t.access_token bid
      ⟨promptResult ui.titleInput preset.title, gid,
       if preset.tags = [] then none else some preset.tags⟩ = .httpError 401)
    (g1 : env2.getBroadcasterId t2.access_token = .httpError 401)
    (g2 : env2.refreshTokens t2.refresh_token = .ok newT2)
    (g3 : env2.getBroadcasterId newT2.access_token = .ok bid2) :
    (run_preset env cfg preset ui pw (some t)).outcome = .exn (.httpError 401) ∧
    countEv isRefreshEv (run_preset env cfg preset ui pw (some t)).trace = 0 ∧
    countEv isPatchEv (run_preset env cfg preset ui pw (some t)).trace = 1 ∧
    countEv isRefreshEv (run_preset env2 cfg2 preset2 ui2 pw2 (some t2)).trace = 1 := by
  have ha : authStage env t (some t) =
      (.ok (t.access_token, bid), [.getBroadcasterId t.access_token], some t) := by
    simp [authStage, h1]
  have hafter : afterConfirm env cfg pw t.access_token bid
      (promptResult ui.titleInput preset.title) preset.category preset.tags =
      (.exn (.httpError 401),
       [.getGames t.access_token preset.category,
        .updateChannel t.access_token bid
          ⟨promptResult ui.titleInput preset.title, gid,
           if preset.tags = [] then none else some preset.tags⟩]) := by
    simp [afterConfirm, h3, h4]
  have ha2 : authStage env2 t2 (some t2) =
      (.ok (newT2.access_token, bid2),
       [.getBroadcasterId t2.access_token, .refreshTokens t2.refresh_token,
        .saveTokens newT2, .getBroadcasterId newT2.access_token], some newT2) := by
    simp [authStage, g1, g2, g3]
  have hz := List.countP_eq_zero.mpr (fun x hx => by
    simpa using afterConfirm_no_refresh env2 cfg2 pw2 newT2.access_token bid2
      (promptResult ui2.titleInput preset2.title) preset2.category
      preset2.tags x hx)
  refine ⟨?_, ?_, ?_, ?_⟩
  · simp only [run_preset, runWithTokens, ha]
    repeat' split
    all_goals simp_all [hafter]
  · simp only [run_preset, runWithTokens, ha, countEv]
    repeat' split
    all_goals simp_all [hafter, List.countP_append, List.countP_cons,
      List.countP_nil, isRefreshEv]
  · simp only [run_preset, runWithTokens, ha, countEv]
    repeat' split
    all_goals simp_all [hafter, List.countP_append, List.countP_cons,
      List.countP_nil, isPatchEv]
  · simp only [run_preset, runWithTokens, ha2, countEv]
    repeat' split
    all_goals simp [List.countP_append, List.countP_cons, List.countP_nil,
      isRefreshEv, hz]

/-- Witness for the amended C3 at concrete worlds. -/
theorem only_account_resolution_wrapped_witness :
    (run_preset envPatch401 cfg0 preset0 ui0 (some "pw") (some t0)).outcome
      = .exn (.httpError 401) ∧
    countEv isRefreshEv
      (run_preset envAuthOnce cfg0 preset0 ui0 (some "pw") (some t0)).trace = 1 :=
  ⟨(only_account_resolution_wrapped envPatch401 envAuthOnce cfg0 cfg0 preset0
      preset0 ui0 ui0 (some "pw") (some "pw") t0 t0 t1 "bid1" "bid1" "509658"
      ["111"] rfl (by decide) rfl (by decide) rfl rfl rfl).1,
   (only_account_resolution_wrapped envPatch401 envAuthOnce cfg0 cfg0 preset0
      preset0 ui0 ui0 (some "pw") (some "pw") t0 t0 t1 "bid1" "bid1" "509658"
      ["111"] rfl (by decide) rfl (by decide) rfl rfl rfl).2.2.2⟩

/-- C4: after a successful refresh (world `env`), the persisted token
file holds exactly the TokenSet returned by the refresh exchange —
including its opaque extra fields, with nothing merged from the old
record — and stays that way to the end of the run; after a failed
refresh (world `env2`, rejected exchange or connection failure), the
token file still holds exactly its pre-refresh contents. -/
theorem token_file_replacement
    (env env2 : Env) (cfg cfg2 : Cfg) (preset preset2 : Preset)
    (ui ui2 : UserInput) (pw pw2 : Option String)
    (t newT t2 : TokenSet) (s s2 sB : Nat)
    (h1 : env.getBroadcasterId t.access_token = .httpError s)
    (h2 : env.refreshTokens t.refresh_token = .ok newT)
    (g1 : env2.getBroadcasterId t2.access_token = .httpError s2)
    (g2 : env2.refreshTokens t2.refresh_token = .httpError sB ∨
          env2.refreshTokens t2.refresh_token = .netError) :
    (run_preset env cfg preset ui pw (some t)).file = some newT ∧
    (run_preset env2 cfg2 preset2 ui2 pw2 (some t2)).file = some t2 := by
  constructor
  · rcases hb : env.getBroadcasterId newT.access_token with bid | s3 | _
    · simp only [run_preset, runWithTokens, authStage, h1, h2, hb]
      repeat' split
      all_goals simp_all
    · simp [run_preset, runWithTokens, authStage, h1, h2, hb]
    · simp [run_preset, runWithTokens, authStage, h1, h2, hb]
  · rcases g2 with g2 | g2 <;>
      simp [run_preset, runWithTokens, authStage, g1, g2]

/-- Witness for C4: concrete refresh success stores exactly the new
record (different extra fields from the old one); concrete refresh
rejection leaves the original record. -/
theorem token_file_replacement_witness :
    (run_preset envAuthOnce cfg0 preset0 ui0 (some "pw") (some t0)).file = some t1 ∧
    (run_preset envRefreshFail cfg0 preset0 ui0 (some "pw") (some t0)).file = some t0 :=
  token_file_replacement envAuthOnce envRefreshFail cfg0 cfg0 preset0 preset0
    ui0 ui0 (some "pw") (some "pw") t0 t1 t0 401 401 400 rfl rfl rfl (Or.inl rfl)

/-- C5: in the auto-start step, a queried status with `active == true`
(world `env`) leads to zero `start()` calls and the step completes; a
status with `active == false` (world `env2`) leads to exactly one
`start()` call. -/
theorem auto_start_status_gating
    (env env2 : Env) (pw pw2 : Option String)
    (h : falsyStr pw = false) (h2 : falsyStr pw2 = false)
    (ha : env.getStreamStatus = .ok true)
    (hi : env2.getStreamStatus = .ok false) :
    countEv isStartEv (start_obs env pw).2 = 0 ∧
    (start_obs env pw).1 = .done ∧
    countEv isStartEv (start_obs env2 pw2).2 = 1 := by
  refine ⟨?_, ?_, ?_⟩
  · simp [start_obs, h, ha, countEv, List.countP_cons, List.countP_nil,
      isStartEv]
  · simp [start_obs, h, ha]
  · rcases hs : env2.startStream with _ | s | _ <;>
      simp [start_obs, h2, hi, hs, countEv, List.countP_cons,
        List.countP_nil, isStartEv]

/-- Witness for C5 at concrete worlds: already-active skips `start()`,
inactive issues exactly one. -/
theorem auto_start_status_gating_witness :
    countEv isStartEv (start_obs envActive (some "pw")).2 = 0 ∧
    countEv isStartEv (start_obs envOk (some "pw")).2 = 1 :=
  ⟨(auto_start_status_gating envActive envOk (some "pw") (some "pw")
      rfl rfl rfl rfl).1,
   (auto_start_status_gating envActive envOk (some "pw") (some "pw")
      rfl rfl rfl rfl).2.2⟩

/-- C6: a category search returning the empty list (world `env`) makes
the operation die with the not-found message and the metadata patch is
never attempted (the whole tail trace is just the search call); a search
returning `gid :: rest` (world `env2`) resolves to `gid` — every patch
sent uses `gid` as the game id, regardless of `rest`. -/
theorem category_resolution
    (env env2 : Env) (cfg cfg2 : Cfg) (pw pw2 : Option String)
    (a b ttl cat a2 b2 ttl2 cat2 gid : String)
    (tags tags2 rest : List String)
    (h0 : env.getGames a cat = .ok [])
    (h1 : env2.getGames a2 cat2 = .ok (gid :: rest)) :
    afterConfirm env cfg pw a b ttl cat tags =
      (.died ("Game not found on Twitch: " ++ cat), [.getGames a cat]) ∧
    countEv isPatchEv (afterConfirm env cfg pw a b ttl cat tags).2 = 0 ∧
    (∀ e tok bid p, e ∈ (afterConfirm env2 cfg2 pw2 a2 b2 ttl2 cat2 tags2).2 →
      e = .updateChannel tok bid p → p.game_id = gid) := by
  have he : afterConfirm env cfg pw a b ttl cat tags =
      (.died ("Game not found on Twitch: " ++ cat), [.getGames a cat]) := by
    simp [afterConfirm, h0]
  refine ⟨he, ?_, ?_⟩
  · simp [he, countEv, List.countP_cons, List.countP_nil, isPatchEv]
  · intro e tok bid p hmem hee
    subst hee
    obtain ⟨rfl, rfl, -, -, gid2, rest2, hg, hpid⟩ :=
      afterConfirm_patch_shape env2 cfg2 pw2 a2 b2 ttl2 cat2 tags2 tok bid
        p hmem
    have hgg : gid = gid2 := by
      have h := h1.symm.trans hg
      simp at h
      exact h.1
    rw [hpid, ← hgg]

/-- Witness for C6 at concrete worlds: empty search dies before any
patch; non-empty search `["509658", "111"]` resolves to `"509658"`. -/
theorem category_resolution_witness :
    afterConfirm envEmptyGames cfg0 (some "pw") "acc0" "bid1" "Ranked grind"
      "VALORANT" ["FPS"] =
      (.died ("Game not found on Twitch: " ++ "VALORANT"),
       [.getGames "acc0" "VALORANT"]) ∧
    (⟨"Ranked grind", "509658", some ["FPS"]⟩ : Payload).game_id = "509658" :=
  ⟨(category_resolution envEmptyGames envOk cfg0 cfg0 (some "pw") (some "pw")
      "acc0" "bid1" "Ranked grind" "VALORANT" "acc0" "bid1" "Ranked grind"
      "VALORANT" "509658" ["FPS"] ["FPS"] ["111"] rfl rfl).1,
   (category_resolution envEmptyGames envOk cfg0 cfg0 (some "pw") (some "pw")
      "acc0" "bid1" "Ranked grind" "VALORANT" "acc0" "bid1" "Ranked grind"
      "VALORANT" "509658" ["FPS"] ["FPS"] ["111"] rfl rfl).2.2
      (.updateChannel "acc0" "bid1" ⟨"Ranked grind", "509658", some ["FPS"]⟩)
      "acc0" "bid1" ⟨"Ranked grind", "509658", some ["FPS"]⟩ (by decide) rfl⟩

lemma runWithTokens_aborted_counts (env : Env) (cfg : Cfg) (preset : Preset)
    (ui : UserInput) (pw : Option String) (t : TokenSet)
    (f : Option TokenSet) (tr0 : List Event)
    (h0p : ∀ x ∈ tr0, isPatchEv x = false)
    (h0o : ∀ x ∈ tr0, isObsEv x = false)
    (h : (runWithTokens env cfg preset ui pw t f tr0).outcome = .died "Aborted") :
    countEv isPatchEv (runWithTokens env cfg preset ui pw t f tr0).trace = 0 ∧
    countEv isObsEv (runWithTokens env cfg preset ui pw t f tr0).trace = 0 := by
  rcases ha : authStage env t f with ⟨res, trA, f2⟩
  have hpA : ∀ x ∈ trA, isPatchEv x = false := by
    have hh := authStage_no_patch env t f
    rw [ha] at hh
    exact hh
  have hoA : ∀ x ∈ trA, isObsEv x = false := by
    have hh := authStage_no_obs env t f
    rw [ha] at hh
    exact hh
  rcases res with e | ⟨a, b⟩
  · exact absurd h (by simp [runWithTokens, ha])
  · by_cases hc : (if cfg.promptsConfirm.getD true then
        decide ¬(pyLower ui.confirmInput = "n") else true) = true
    · rw [runWithTokens] at h
      simp only [ha, hc] at h
      simp at h
      exact absurd h (afterConfirm_fst_ne_aborted env cfg pw a b
        (promptResult ui.titleInput preset.title) preset.category preset.tags)
    · have hc' : (if cfg.promptsConfirm.getD true then
          decide ¬(pyLower ui.confirmInput = "n") else true) = false := by
        simpa using hc
      have z1 : tr0.countP isPatchEv = 0 :=
        List.countP_eq_zero.mpr (fun x hx => by simp [h0p x hx])
      have z2 : trA.countP isPatchEv = 0 :=
        List.countP_eq_zero.mpr (fun x hx => by simp [hpA x hx])
      have z3 : tr0.countP isObsEv = 0 :=
        List.countP_eq_zero.mpr (fun x hx => by simp [h0o x hx])
      have z4 : trA.countP isObsEv = 0 :=
        List.countP_eq_zero.mpr (fun x hx => by simp [hoA x hx])
      rw [runWithTokens]
      simp only [ha, hc']
      simp [countEv, List.countP_append, z1, z2, z3, z4]

/-- C7: whenever the orchestration terminates with the user-abort reason
(`die("Aborted")` at the confirmation gate), the run has issued zero
metadata-patch calls and zero broadcast-controller calls, whatever the
world, configuration, preset, answers and initial token file were. -/
theorem abort_before_mutation (env : Env) (cfg : Cfg) (preset : Preset)
    (ui : UserInput) (pw : Option String) (file0 : Option TokenSet)
    (h : (run_preset env cfg preset ui pw file0).outcome = .died "Aborted") :
    countEv isPatchEv (run_preset env cfg preset ui pw file0).trace = 0 ∧
    countEv isObsEv (run_preset env cfg preset ui pw file0).trace = 0 := by
  rcases file0 with _ | t
  · rw [run_preset] at h ⊢
    rcases hx : env.exchangeCode (pyStrip ui.codeInput) with tnew | s | _ <;>
      simp only [hx] at h ⊢
    · exact runWithTokens_aborted_counts env cfg preset ui pw tnew _ _
        (by simp [isPatchEv]) (by simp [isObsEv]) h
    · simp at h
    · simp at h
  · rw [run_preset] at h ⊢
    exact runWithTokens_aborted_counts env cfg preset ui pw t _ _
      (by simp) (by simp) h

/-- Witness for C7: a concrete declined confirmation (`"n"`) aborts with
zero patch and zero controller calls. -/
theorem abort_before_mutation_witness :
    countEv isPatchEv
      (run_preset envOk cfg0 preset0 ⟨"c", "", "", "N"⟩ (some "pw")
        (some t0)).trace = 0 ∧
    countEv isObsEv
      (run_preset envOk cfg0 preset0 ⟨"c", "", "", "N"⟩ (some "pw")
        (some t0)).trace = 0 :=
  abort_before_mutation envOk cfg0 preset0 ⟨"c", "", "", "N"⟩ (some "pw")
    (some t0) (by decide)

/-- C8 counterexample: with all three Twitch variables set but
`OBS_WS_PASSWORD` absent, startup validation passes (no abort), and a
run in an otherwise healthy world performs the metadata patch — a
network action — before dying on the missing controller password inside
`start_obs`. -/
theorem startup_validation_counterexample :
    loadCreds getenvNoObsPw = .ok ⟨"cid", "sec", "http://localhost"⟩ ∧
    (loadObsConn getenvNoObsPw).password = none ∧
    (run_preset envOk cfg0 preset0 ui0 (loadObsConn getenvNoObsPw).password
      (some t0)).outcome = .died "OBS_WS_PASSWORD not set" ∧
    ¬countEv isPatchEv
      (run_preset envOk cfg0 preset0 ui0 (loadObsConn getenvNoObsPw).password
        (some t0)).trace = 0 ∧
    countEv isPatchEv
      (run_preset envOk cfg0 preset0 ui0 (loadObsConn getenvNoObsPw).password
        (some t0)).trace = 1 :=
  ⟨rfl, rfl, by decide, by decide, by decide⟩

/-- C8 amended: the three Twitch credentials are validated once at
startup and a missing one aborts with the descriptive `KeyError` message
before anything else runs; the OBS password, however, is only checked
inside `start_obs`, so a run with it unset (`h6`) still performs the
metadata patch and only then dies. -/
theorem credentials_validated_at_startup_obs_password_late
    (g : String → Option String) (env : Env) (cfg : Cfg) (preset : Preset)
    (ui : UserInput) (pw : Option String) (t : TokenSet)
    (bid gid : String) (rest : List String)
    (hg : g "TWITCH_CLIENT_ID" = none)
    (h1 : env.getBroadcasterId t.access_token = .ok bid)
    (h2 : ¬(pyLower ui.confirmInput = "n"))
    (h3 : env.getGames t.access_token preset.category = .ok (gid :: rest))
    (h4 : env.updateChannel t.access_token bid
      ⟨promptResult ui.titleInput preset.title, gid,
       if preset.tags = [] then none else some preset.tags⟩ = .ok ())
    (h5 : cfg.obsAutoStart.getD true = true)
    (h6 : falsyStr pw = true) :
    loadCreds g =
      .error "Missing required environment variable: 'TWITCH_CLIENT_ID'" ∧
    (run_preset env cfg preset ui pw (some t)).outcome =
      .died "OBS_WS_PASSWORD not set" ∧
    countEv isPatchEv (run_preset env cfg preset ui pw (some t)).trace = 1 := by
  have ha : authStage env t (some t) =
      (.ok (t.access_token, bid), [.getBroadcasterId t.access_token], some t) := by
    simp [authStage, h1]
  have hso : start_obs env pw = (.died "OBS_WS_PASSWORD not set", []) := by
    simp [start_obs, h6]
  have hafter : afterConfirm env cfg pw t.access_token bid
      (promptResult ui.titleInput preset.title) preset.category preset.tags =
      (.died "OBS_WS_PASSWORD not set",
       [.getGames t.access_token preset.category,
        .updateChannel t.access_token bid
          ⟨promptResult ui.titleInput preset.title, gid,
           if preset.tags = [] then none else some preset.tags⟩]) := by
    simp [afterConfirm, h3, h4, h5, hso]
  refine ⟨by simp [loadCreds, hg], ?_, ?_⟩
  · simp only [run_preset, runWithTokens, ha]
    repeat' split
    all_goals simp_all [hafter]
  · simp only [run_preset, runWithTokens, ha, countEv]
    repeat' split
    all_goals simp_all [hafter, List.countP_append, List.countP_cons,
      List.countP_nil, isPatchEv]

/-- Witness for the amended C8 at a concrete world: no variables set at
all for the startup half; a healthy API world with an unset OBS password
for the runtime half. -/
theorem credentials_validated_at_startup_obs_password_late_witness :
    loadCreds getenvMissingCid =
      .error "Missing required environment variable: 'TWITCH_CLIENT_ID'" ∧
    (run_preset envOk cfg0 preset0 ui0 none (some t0)).outcome =
      .died "OBS_WS_PASSWORD not set" :=
  ⟨(credentials_validated_at_startup_obs_password_late getenvMissingCid envOk
      cfg0 preset0 ui0 none t0 "bid1" "509658" ["111"] rfl rfl (by decide)
      rfl rfl rfl rfl).1,
   (credentials_validated_at_startup_obs_password_late getenvMissingCid envOk
      cfg0 preset0 ui0 none t0 "bid1" "509658" ["111"] rfl rfl (by decide)
      rfl rfl rfl rfl).2.1⟩

lemma runWithTokens_patch_shape (env : Env) (cfg : Cfg) (preset : Preset)
    (ui : UserInput) (pw : Option String) (t : TokenSet)
    (f : Option TokenSet) (tr0 : List Event) (tok bid : String) (p : Payload)
    (h0 : ∀ x ∈ tr0, isPatchEv x = false)
    (hm : Event.updateChannel tok bid p ∈
      (runWithTokens env cfg preset ui pw t f tr0).trace) :
    p.title = promptResult ui.titleInput preset.title ∧
    p.tags = (if preset.tags = [] then none else some preset.tags) ∧
    ∃ gid rest, env.getGames tok preset.category = .ok (gid :: rest) ∧
      p.game_id = gid := by
  rcases ha : authStage env t f with ⟨res, trA, f2⟩
  have hpA : ∀ x ∈ trA, isPatchEv x = false := by
    have hh := authStage_no_patch env t f
    rw [ha] at hh
    exact hh
  rcases res with e | ⟨a, b⟩
  · rw [runWithTokens] at hm
    simp only [ha] at hm
    rcases List.mem_append.mp hm with hx | hx
    · have := h0 _ hx
      simp [isPatchEv] at this
    · have := hpA _ hx
      simp [isPatchEv] at this
  · by_cases hc : (if cfg.promptsConfirm.getD true then
        decide ¬(pyLower ui.confirmInput = "n") else true) = true
    · rw [runWithTokens] at hm
      simp only [ha, hc] at hm
      simp only [if_true, List.append_assoc, List.mem_append] at hm
      rcases hm with hx | hx | hx
      · have := h0 _ hx
        simp [isPatchEv] at this
      · have := hpA _ hx
        simp [isPatchEv] at this
      · obtain ⟨rfl, rfl, hT, hTg, gid, rest, hg, hpid⟩ :=
          afterConfirm_patch_shape env cfg pw a b
            (promptResult ui.titleInput preset.title) preset.category
            preset.tags tok bid p hx
        exact ⟨hT, hTg, gid, rest, hg, hpid⟩
    · have hc' : (if cfg.promptsConfirm.getD true then
          decide ¬(pyLower ui.confirmInput = "n") else true) = false := by
        simpa using hc
      rw [runWithTokens] at hm
      simp only [ha, hc'] at hm
      simp only [Bool.false_eq_true, if_false, List.mem_append] at hm
      rcases hm with hx | hx
      · have := h0 _ hx
        simp [isPatchEv] at this
      · have := hpA _ hx
        simp [isPatchEv] at this

lemma run_preset_patch_shape (env : Env) (cfg : Cfg) (preset : Preset)
    (ui : UserInput) (pw : Option String) (file0 : Option TokenSet)
    (tok bid : String) (p : Payload)
    (hm : Event.updateChannel tok bid p ∈
      (run_preset env cfg preset ui pw file0).trace) :
    p.title = promptResult ui.titleInput preset.title ∧
    p.tags = (if preset.tags = [] then none else some preset.tags) ∧
    ∃ gid rest, env.getGames tok preset.category = .ok (gid :: rest) ∧
      p.game_id = gid := by
  rcases file0 with _ | t
  · rw [run_preset] at hm
    rcases hx : env.exchangeCode (pyStrip ui.codeInput) with tnew | s | _ <;>
      simp only [hx] at hm
    · exact runWithTokens_patch_shape env cfg preset ui pw tnew _ _ tok bid p
        (by simp [isPatchEv]) hm
    · simp at hm
    · simp at hm
  · rw [run_preset] at hm
    exact runWithTokens_patch_shape env cfg preset ui pw t _ _ tok bid p
      (by simp) hm

/-- C9: every metadata patch sent during any run carries exactly the
confirmed title, the game id resolved from the category search with the
same token, and the preset's tags only when they are non-empty; the
go-live-notification answer is discarded — replacing it by any other
string `x` leaves the entire run unchanged. -/
theorem notification_excluded_payload_exact (env : Env) (cfg : Cfg)
    (preset : Preset) (ui : UserInput) (x : String) (pw : Option String)
    (file0 : Option TokenSet) (tok bid : String) (p : Payload)
    (hm : Event.updateChannel tok bid p ∈
      (run_preset env cfg preset ui pw file0).trace) :
    p.title = promptResult ui.titleInput preset.title ∧
    p.tags = (if preset.tags = [] then none else some preset.tags) ∧
    (∃ gid rest, env.getGames tok preset.category = .ok (gid :: rest) ∧
      p.game_id = gid) ∧
    run_preset env cfg preset { ui with notifInput := x } pw file0 =
      run_preset env cfg preset ui pw file0 := by
  obtain ⟨a1, a2, a3⟩ :=
    run_preset_patch_shape env cfg preset ui pw file0 tok bid p hm
  exact ⟨a1, a2, a3, rfl⟩

/-- Witness for C9: the concrete successful run patches with the
preset's title, the resolved id and the tags, independently of the
notification answer. -/
theorem notification_excluded_payload_exact_witness :
    (⟨"Ranked grind", "509658", some ["FPS"]⟩ : Payload).title =
      promptResult ui0.titleInput preset0.title ∧
    (⟨"Ranked grind", "509658", some ["FPS"]⟩ : Payload).tags =
      (if preset0.tags = [] then none else some preset0.tags) ∧
    (∃ gid rest, envOk.getGames "acc0" preset0.category = .ok (gid :: rest) ∧
      (⟨"Ranked grind", "509658", some ["FPS"]⟩ : Payload).game_id = gid) ∧
    run_preset envOk cfg0 preset0 { ui0 with notifInput := "other" } (some "pw")
      (some t0) = run_preset envOk cfg0 preset0 ui0 (some "pw") (some t0) :=
  notification_excluded_payload_exact envOk cfg0 preset0 ui0 "other"
    (some "pw") (some t0) "acc0" "bid1"
    ⟨"Ranked grind", "509658", some ["FPS"]⟩ (by decide)

/-- C10: in a run that reaches the prompts, when the confirm flag is on
the orchestration aborts if and only if the lowercased answer equals
exactly `"n"` — answers like `"no"`, an empty line or `" n "` proceed;
when the flag is off, the run never aborts at the gate and is entirely
independent of the confirmation answer. -/
theorem confirm_gate_exact_n (env : Env) (cfg : Cfg) (preset : Preset)
    (ui : UserInput) (x : String) (pw : Option String) (t : TokenSet)
    (bid : String)
    (h1 : env.getBroadcasterId t.access_token = .ok bid) :
    (cfg.promptsConfirm.getD true = true →
      ((run_preset env cfg preset ui pw (some t)).outcome = .died "Aborted" ↔
        pyLower ui.confirmInput = "n")) ∧
    (cfg.promptsConfirm.getD true = false →
      (run_preset env cfg preset ui pw (some t)).outcome ≠ .died "Aborted" ∧
      run_preset env cfg preset { ui with confirmInput := x } pw (some t) =
        run_preset env cfg preset ui pw (some t)) := by
  have ha : authStage env t (some t) =
      (.ok (t.access_token, bid), [.getBroadcasterId t.access_token], some t) := by
    simp [authStage, h1]
  constructor
  · intro hf
    by_cases hn : pyLower ui.confirmInput = "n"
    · simp [run_preset, runWithTokens, ha, hf, hn]
    · simp [run_preset, runWithTokens, ha, hf, hn,
        afterConfirm_fst_ne_aborted]
  · intro hf
    constructor
    · simp [run_preset, runWithTokens, ha, hf, afterConfirm_fst_ne_aborted]
    · simp [run_preset, runWithTokens, ha, hf]

/-- Witness for C10: answering `"no"` with the prompt on does not abort;
with the prompt off even `"n"` is ignored. -/
theorem confirm_gate_exact_n_witness :
    ((run_preset envOk cfg0 preset0 ⟨"c", "", "", "no"⟩ (some "pw")
        (some t0)).outcome = .died "Aborted" ↔ pyLower "no" = "n") ∧
    run_preset envOk cfgNoConfirm preset0 { ui0 with confirmInput := "n" }
      (some "pw") (some t0) =
      run_preset envOk cfgNoConfirm preset0 ui0 (some "pw") (some t0) :=
  ⟨(confirm_gate_exact_n envOk cfg0 preset0 ⟨"c", "", "", "no"⟩ "z"
      (some "pw") t0 "bid1" rfl).1 rfl,
   ((confirm_gate_exact_n envOk cfgNoConfirm preset0 ui0 "n"
      (some "pw") t0 "bid1" rfl).2 rfl).2⟩

end TwitchGo
